import Mathlib

/-!
Shallow embedding of the core logic of the Geospatial_Web_App repository:
the raster-to-image normalization pipeline (`process_tif_to_png`), the
vector normalizer (`get_geojson_data`, in its two deployment variants),
and the extension-dispatch logic of the two deployment variants
(`get_data` in `api-server.py` and `lambda_handler` in
`geospatial-cloud-server-image/src/main.py`).

Modelling conventions:
- Raster samples are modelled as exact rationals (`ℚ`).  The Python code
  computes in IEEE float64; every theorem below only relies on values for
  which float64 arithmetic is exact or on inequalities that float64
  division/multiplication preserve, so the rational model is faithful for
  the stated properties.
- The 2-D sample grid is flattened to a row-major list; positional
  correspondence between input samples and output pixels is by list index.
- File names are modelled as lists of character codes (`List ℕ`).
-/

namespace Geo

/-- A single-band raster as `process_tif_to_png` sees it after
`src.read(1)` and `src.nodata`: the flattened sample grid and the
optional nodata sentinel. -/
structure Raster where
  samples : List ℚ
  nodata : Option ℚ
deriving DecidableEq

/-- The samples over which min/max are computed.  When a nodata value is
present the code uses `np.ma.masked_equal(image_array, nodata_val)`,
excluding exactly the cells equal to the sentinel; otherwise it reduces
over the whole array. -/
def validSamples (r : Raster) : List ℚ :=
  match r.nodata with
  | some nd => r.samples.filter (fun s => s != nd)
  | none => r.samples

/-- Model of `np.min` over a flattened list: `none` on an all-masked
(empty) list, mirroring numpy's masked reduction producing
`numpy.ma.masked`. -/
def listMin : List ℚ → Option ℚ
  | [] => none
  | x :: xs => some (xs.foldl min x)

/-- Model of `np.max` over a flattened list, `none` on an all-masked
(empty) list. -/
def listMax : List ℚ → Option ℚ
  | [] => none
  | x :: xs => some (xs.foldl max x)

/-- Truncation toward zero, the rounding mode of a C float-to-integer
cast (and hence of `ndarray.astype`). -/
def truncQ (q : ℚ) : ℤ := if 0 ≤ q then ⌊q⌋ else -⌊-q⌋

/-- Model of `astype(np.uint8)`: C-style cast of a float to an unsigned 8-bit
integer — truncation toward zero followed by wrap-around modulo 256.
No rounding and no clamping is performed. -/
def toU8 (q : ℚ) : ℕ := (Int.emod (truncQ q) 256).toNat

/-- Step 3 of the pipeline: `((image_array - min_val) / range_val) * 255`. -/
def scale (mn range s : ℚ) : ℚ := (s - mn) / range * 255

/-- The per-cell output pixel: the scaled value cast to uint8, except
that the final `image_array_8bit[image_array == nodata_val] = 0`
overwrite forces every cell whose *input* sample equals the sentinel to
0 (the uint8 value computed for such a cell is discarded). -/
def renderPixel (nodata : Option ℚ) (mn range s : ℚ) : ℕ :=
  match nodata with
  | some nd => if s = nd then 0 else toU8 (scale mn range s)
  | none => toU8 (scale mn range s)

/-- Failure values of `process_tif_to_png` (the second component of its
returned pair). -/
inductive RasterError
  | notFound   -- "Raster source file not found."
  | readError  -- rasterio.open (or array read) raised
  | uniform    -- "TIF data is uniform ... and cannot be scaled."
  | writeError -- the PNG write / integrity check raised
deriving DecidableEq

/-- The state of the file at `file_path` when `process_tif_to_png` is
invoked: absent, present but unparseable as a raster, or parsed. -/
inductive RasterFile
  | missing
  | unreadable
  | ok (r : Raster)
deriving DecidableEq

/-- Embedding of `process_tif_to_png` (identical scaling logic in `api-server.py`
lines 31–104 and `main.py` lines 50–103).  Returns the Python pair
`(png, error)`.  `writeOk` abstracts whether the PNG write and the
integrity re-open succeed; they run only after the scaling succeeded.

In the all-nodata case numpy's masked reduction returns
`numpy.ma.masked`; `bool(masked)` is `False`, so the `range_val <= 0`
check does not fire, the masked arithmetic propagates, and the final
nodata overwrite then sets every cell (all equal to the sentinel) to 0. -/
def process_tif_to_png (writeOk : Bool) : RasterFile → Option (List ℕ) × Option RasterError
  | .missing => (none, some .notFound)
  | .unreadable => (none, some .readError)
  | .ok r =>
    match listMin (validSamples r), listMax (validSamples r) with
    | some mn, some mx =>
      if mx - mn ≤ 0 then (none, some .uniform)
      else if writeOk then
        (some (r.samples.map (renderPixel r.nodata mn (mx - mn))), none)
      else (none, some .writeError)
    | _, _ =>
      if writeOk then (some (r.samples.map (fun _ => 0)), none)
      else (none, some .writeError)

/-- One vector feature: an attribute mapping and a geometry, the latter
modelled as its coordinate sequence (multi-part geometries flattened). -/
structure Feature where
  attrs : List (String × String)
  geometry : List (ℚ × ℚ)
deriving DecidableEq

/-- A GeoDataFrame as `gpd.read_file` produces it: the collection's CRS
identifier and the ordered feature list. -/
structure FeatureColl where
  crs : String
  features : List Feature
deriving DecidableEq

/-- Failure values of `get_geojson_data`. -/
inductive VectorError
  | notFound  -- "Vector source file not found."
  | readError -- gpd.read_file / serialization raised
deriving DecidableEq

/-- The state of the file at `file_path` when `get_geojson_data` is
invoked. -/
inductive VectorFile
  | missing
  | unreadable
  | ok (coll : FeatureColl)
deriving DecidableEq

/-- Embedding of `get_geojson_data` of the cloud variant (`main.py` lines 106–130):
after reading, `if gdf.crs != "EPSG:4326": gdf = gdf.to_crs(epsg=4326)`
reprojects every geometry and retags the collection; `reproject`
abstracts the per-feature coordinate transform performed by
`to_crs(epsg=4326)`. -/
def get_geojson_data_cloud (reproject : Feature → Feature) :
    VectorFile → Option FeatureColl × Option VectorError
  | .missing => (none, some .notFound)
  | .unreadable => (none, some .readError)
  | .ok coll =>
    if coll.crs ≠ "EPSG:4326" then
      (some ⟨"EPSG:4326", coll.features.map reproject⟩, none)
    else (some coll, none)

/-- Embedding of `get_geojson_data` of the local variant (`api-server.py` lines
106–127): the file is read and serialized as-is; there is no CRS check
and no reprojection. -/
def get_geojson_data_local : VectorFile → Option FeatureColl × Option VectorError
  | .missing => (none, some .notFound)
  | .unreadable => (none, some .readError)
  | .ok coll => (some coll, none)

/-- Python `str.lower` on a character code, restricted to the ASCII
letters that can occur in the compared extensions. -/
def lower (c : ℕ) : ℕ := if 65 ≤ c ∧ c ≤ 90 then c + 32 else c

/-- Character codes of a string literal (for readable extension
constants). -/
def codes (s : String) : List ℕ := s.data.map Char.toNat

/-- Index of the last `'.'` (code 46) in a name, if any. -/
def lastDot : List ℕ → Option ℕ
  | [] => none
  | c :: rest =>
    match lastDot rest with
    | some i => some (i + 1)
    | none => if c = 46 then some 0 else none

/-- The extension part of `os.path.splitext` for a bare file name (no
directory separators): the suffix from the last dot, unless every
character before that dot is itself a dot (so `".tif"`, a leading-dot
name, has no extension). -/
def splitextExt (name : List ℕ) : List ℕ :=
  match lastDot name with
  | none => []
  | some i => if (name.take i).all (fun c => c == 46) then [] else name.drop i

/-- The three handling families of the dispatch logic. -/
inductive Category
  | RasterCat
  | VectorCat
  | UnsupportedType
deriving DecidableEq

/-- Dispatch of the local variant (`get_data`, `api-server.py` lines
134–166): `file_ext = os.path.splitext(file_name)[1].lower()`, then
`'.tif'` → raster, `('.geojson', '.gpkg', '.shp')` → vector, anything
else → the 400 "Unsupported file type" branch. -/
def classifyLocal (name : List ℕ) : Category :=
  if (splitextExt name).map lower = codes ".tif" then .RasterCat
  else if (splitextExt name).map lower = codes ".geojson" ∨
      (splitextExt name).map lower = codes ".gpkg" ∨
      (splitextExt name).map lower = codes ".shp" then .VectorCat
  else .UnsupportedType

/-- Dispatch of the cloud variant (`lambda_handler`, `main.py` lines
11–12 and 156–227): case-sensitive `file_name.endswith` against
`RASTER_FILES = ('.tif',)` (checked first, for both the metadata and the
image route) and `VECTOR_FILES = ('.geojson', '.gpkg', '.shp')`; a name
matching neither falls to the 404 mismatch branch. -/
def classifyCloud (name : List ℕ) : Category :=
  if (codes ".tif").isSuffixOf name then .RasterCat
  else if (codes ".geojson").isSuffixOf name ∨ (codes ".gpkg").isSuffixOf name ∨
      (codes ".shp").isSuffixOf name then .VectorCat
  else .UnsupportedType

/-- A sample that survives the masking step: not equal to the nodata
sentinel when one is present. -/
def isValidSample (r : Raster) (s : ℚ) : Prop :=
  match r.nodata with
  | some nd => s ≠ nd
  | none => True

/-- Spec-side per-pixel formula, following the specification's words
verbatim for comparison with the code's `toU8 (scale ..)`:
"output = round((sample − min) / range × 255), clamped to [0,255], cast
to 8-bit unsigned" (round = nearest integer, half away from zero here;
the exhibited counterexample value 127.5 rounds to 128 under every
standard tie-breaking rule). -/
def specPixel (mn range s : ℚ) : ℕ :=
  (max 0 (min 255 ⌊(s - mn) / range * 255 + 1/2⌋)).toNat

/-- The shape of the Python pair `(artifact, error)`: exactly one
component present. -/
def exclusiveOutcome {A B : Type} (p : Option A × Option B) : Prop :=
  (p.1 ≠ none ∧ p.2 = none) ∨ (p.1 = none ∧ p.2 ≠ none)

/-! ### Helper lemmas about the masked min/max reduction -/

theorem foldl_min_le (xs : List ℚ) (a : ℚ) :
    xs.foldl min a ≤ a ∧ ∀ x ∈ xs, xs.foldl min a ≤ x := by
  induction xs generalizing a with
  | nil => simp
  | cons y ys ih =>
    simp only [List.foldl_cons]
    refine ⟨(ih (min a y)).1.trans (min_le_left a y), ?_⟩
    intro x hx
    rcases List.mem_cons.mp hx with rfl | hx
    · exact (ih (min a x)).1.trans (min_le_right a x)
    · exact (ih (min a y)).2 x hx

theorem foldl_min_mem (xs : List ℚ) (a : ℚ) :
    xs.foldl min a = a ∨ xs.foldl min a ∈ xs := by
  induction xs generalizing a with
  | nil => exact Or.inl rfl
  | cons y ys ih =>
    simp only [List.foldl_cons]
    rcases ih (min a y) with h | h
    · rcases min_choice a y with h2 | h2
      · exact Or.inl (h.trans h2)
      · exact Or.inr (List.mem_cons.mpr (Or.inl (h.trans h2)))
    · exact Or.inr (List.mem_cons.mpr (Or.inr h))

theorem foldl_max_le (xs : List ℚ) (a : ℚ) :
    a ≤ xs.foldl max a ∧ ∀ x ∈ xs, x ≤ xs.foldl max a := by
  induction xs generalizing a with
  | nil => simp
  | cons y ys ih =>
    simp only [List.foldl_cons]
    refine ⟨(le_max_left a y).trans (ih (max a y)).1, ?_⟩
    intro x hx
    rcases List.mem_cons.mp hx with rfl | hx
    · exact (le_max_right a x).trans (ih (max a x)).1
    · exact (ih (max a y)).2 x hx

theorem foldl_max_mem (xs : List ℚ) (a : ℚ) :
    xs.foldl max a = a ∨ xs.foldl max a ∈ xs := by
  induction xs generalizing a with
  | nil => exact Or.inl rfl
  | cons y ys ih =>
    simp only [List.foldl_cons]
    rcases ih (max a y) with h | h
    · rcases max_choice a y with h2 | h2
      · exact Or.inl (h.trans h2)
      · exact Or.inr (List.mem_cons.mpr (Or.inl (h.trans h2)))
    · exact Or.inr (List.mem_cons.mpr (Or.inr h))

theorem listMin_spec {l : List ℚ} {m : ℚ} (h : listMin l = some m) :
    m ∈ l ∧ ∀ x ∈ l, m ≤ x := by
  cases l with
  | nil => simp [listMin] at h
  | cons x xs =>
    simp only [listMin, Option.some.injEq] at h
    subst h
    constructor
    · rcases foldl_min_mem xs x with h | h
      · rw [h]; exact List.mem_cons_self x xs
      · exact List.mem_cons.mpr (Or.inr h)
    · intro y hy
      rcases List.mem_cons.mp hy with rfl | hy
      · exact (foldl_min_le xs y).1
      · exact (foldl_min_le xs x).2 y hy

theorem listMax_spec {l : List ℚ} {m : ℚ} (h : listMax l = some m) :
    m ∈ l ∧ ∀ x ∈ l, x ≤ m := by
  cases l with
  | nil => simp [listMax] at h
  | cons x xs =>
    simp only [listMax, Option.some.injEq] at h
    subst h
    constructor
    · rcases foldl_max_mem xs x with h | h
      · rw [h]; exact List.mem_cons_self x xs
      · exact List.mem_cons.mpr (Or.inr h)
    · intro y hy
      rcases List.mem_cons.mp hy with rfl | hy
      · exact (foldl_max_le xs y).1
      · exact (foldl_max_le xs x).2 y hy

theorem mem_validSamples {r : Raster} {s : ℚ} (hs : s ∈ r.samples)
    (hv : isValidSample r s) : s ∈ validSamples r := by
  unfold validSamples
  unfold isValidSample at hv
  cases h : r.nodata with
  | none => simpa [h] using hs
  | some nd =>
    rw [h] at hv
    simp only [h]
    exact List.mem_filter.mpr ⟨hs, by simpa [bne_iff_ne] using hv⟩

theorem validSamples_not_nodata {r : Raster} {s nd : ℚ}
    (hnd : r.nodata = some nd) (hs : s ∈ validSamples r) : s ≠ nd := by
  unfold validSamples at hs
  rw [hnd] at hs
  have := (List.mem_filter.mp hs).2
  simpa [bne_iff_ne] using this

/-! ### Helper lemmas about the scaling arithmetic -/

theorem scale_nonneg {mn mx s : ℚ} (h1 : mn ≤ s) (hr : mn < mx) :
    0 ≤ scale mn (mx - mn) s := by
  unfold scale
  have hrange : (0:ℚ) < mx - mn := by linarith
  have h : (0:ℚ) ≤ (s - mn) / (mx - mn) :=
    div_nonneg (by linarith) (le_of_lt hrange)
  nlinarith

theorem scale_le_255 {mn mx s : ℚ} (h2 : s ≤ mx) (hr : mn < mx) :
    scale mn (mx - mn) s ≤ 255 := by
  unfold scale
  have hrange : (0:ℚ) < mx - mn := by linarith
  have h : (s - mn) / (mx - mn) ≤ 1 := by
    rw [div_le_one hrange]
    linarith
  nlinarith

theorem scale_self (mn range : ℚ) : scale mn range mn = 0 := by
  unfold scale
  simp

theorem scale_max {mn mx : ℚ} (hr : mn < mx) : scale mn (mx - mn) mx = 255 := by
  unfold scale
  rw [div_self (by linarith : mx - mn ≠ 0)]
  ring

theorem truncQ_of_nonneg {q : ℚ} (h : 0 ≤ q) : truncQ q = ⌊q⌋ := by
  unfold truncQ
  exact if_pos h

theorem toU8_no_wrap {q : ℚ} (h0 : 0 ≤ q) (h255 : q ≤ 255) :
    toU8 q = (⌊q⌋).toNat := by
  unfold toU8
  rw [truncQ_of_nonneg h0]
  have hfl0 : (0:ℤ) ≤ ⌊q⌋ := Int.floor_nonneg.mpr h0
  have hfl255 : ⌊q⌋ ≤ 255 := by
    have := Int.floor_le_floor h255
    simpa using this
  have : ⌊q⌋.emod 256 = ⌊q⌋ % 256 := rfl
  rw [this, Int.emod_eq_of_lt hfl0 (by omega)]

theorem toU8_zero : toU8 0 = 0 := by
  rw [toU8_no_wrap le_rfl (by norm_num)]
  simp

theorem toU8_255 : toU8 255 = 255 := by
  rw [toU8_no_wrap (by norm_num) le_rfl]
  simp

/-- When the masked min/max are defined and the range is positive, the
pipeline succeeds and the output is the per-cell render of every sample
in order. -/
theorem process_ok_eq {r : Raster} {mn mx : ℚ}
    (hmn : listMin (validSamples r) = some mn)
    (hmx : listMax (validSamples r) = some mx) (hr : mn < mx) :
    process_tif_to_png true (.ok r) =
      (some (r.samples.map (renderPixel r.nodata mn (mx - mn))), none) := by
  dsimp only [process_tif_to_png]
  rw [hmn, hmx]
  simp only [if_neg (by linarith : ¬ mx - mn ≤ 0)]
  simp

/-! ### Claim theorems: raster pipeline -/

/-- Claim C10: for every raster with non-uniform valid data, every valid
(non-nodata) sample's scaled value (s − min)/range·255 lies within
[0, 255], so the 8-bit cast truncates without wrapping modulo 256; a
sample whose scaled value is out of that range can only be the nodata
sentinel, and such a cell's rendered output is 0. -/
theorem valid_scale_in_range_no_wrap (r : Raster) (mn mx : ℚ)
    (hmn : listMin (validSamples r) = some mn)
    (hmx : listMax (validSamples r) = some mx) (hr : mn < mx) :
    (∀ s ∈ r.samples, isValidSample r s →
        0 ≤ scale mn (mx - mn) s ∧ scale mn (mx - mn) s ≤ 255 ∧
        toU8 (scale mn (mx - mn) s) = (⌊scale mn (mx - mn) s⌋).toNat) ∧
    (∀ s ∈ r.samples, ¬(0 ≤ scale mn (mx - mn) s ∧ scale mn (mx - mn) s ≤ 255) →
        r.nodata = some s ∧ renderPixel r.nodata mn (mx - mn) s = 0) := by
  have valid_bounds : ∀ s ∈ r.samples, isValidSample r s →
      0 ≤ scale mn (mx - mn) s ∧ scale mn (mx - mn) s ≤ 255 := by
    intro s hs hv
    have hmem := mem_validSamples hs hv
    have h1 := (listMin_spec hmn).2 s hmem
    have h2 := (listMax_spec hmx).2 s hmem
    exact ⟨scale_nonneg h1 hr, scale_le_255 h2 hr⟩
  constructor
  · intro s hs hv
    obtain ⟨h0, h255⟩ := valid_bounds s hs hv
    exact ⟨h0, h255, toU8_no_wrap h0 h255⟩
  · intro s hs hout
    have hv : ¬ isValidSample r s := fun hv => hout (valid_bounds s hs hv)
    unfold isValidSample at hv
    cases hnd : r.nodata with
    | none => rw [hnd] at hv; exact absurd trivial hv
    | some nd =>
      rw [hnd] at hv
      obtain rfl : s = nd := not_not.mp hv
      refine ⟨rfl, ?_⟩
      unfold renderPixel
      simp

/-- Claim C2 counterexample: for the raster with samples [0, 1, 2] and no
nodata, the code outputs 127 for the middle sample (truncation of
127.5), while the specified formula round((s − min)/range·255) with
clamping gives 128. -/
theorem scaling_formula_counterexample :
    (process_tif_to_png true (.ok ⟨[0, 1, 2], none⟩)).1 = some [0, 127, 255] ∧
    specPixel 0 (2 - 0) 1 = 128 ∧ (127 : ℕ) ≠ 128 := by
  refine ⟨?_, ?_, by decide⟩
  · have h : process_tif_to_png true (.ok ⟨[0, 1, 2], none⟩) =
        (some [0, 127, 255], none) := by
      simp only [process_tif_to_png, validSamples]
      norm_num [listMin, listMax, renderPixel, scale, toU8, truncQ]
      omega
    rw [h]
  · norm_num [specPixel]
    omega

/-- Claim C2 (amended): the pipeline maps every valid sample to the
truncation ⌊(s − min)/range·255⌋ — the 8-bit cast truncates toward zero,
with no explicit rounding or clamping in the code — and for the scenario
raster with samples [10, 20, 30, 40, 99] and nodata 99 the output is
[0, 85, 170, 255, 0]: samples 20 and 30 map to 85 and 170, the exact
proportional values between 0 and 255. -/
theorem scaling_truncates (r : Raster) (mn mx : ℚ)
    (hmn : listMin (validSamples r) = some mn)
    (hmx : listMax (validSamples r) = some mx) (hr : mn < mx) :
    (process_tif_to_png true (.ok r)).1 =
        some (r.samples.map (renderPixel r.nodata mn (mx - mn))) ∧
    (∀ s ∈ r.samples, isValidSample r s →
        renderPixel r.nodata mn (mx - mn) s = (⌊(s - mn) / (mx - mn) * 255⌋).toNat) ∧
    process_tif_to_png true (.ok ⟨[10, 20, 30, 40, 99], some 99⟩) =
      (some [0, 85, 170, 255, 0], none) := by
  refine ⟨by rw [process_ok_eq hmn hmx hr], ?_, ?_⟩
  · intro s hs hv
    have hmem := mem_validSamples hs hv
    have h1 := (listMin_spec hmn).2 s hmem
    have h2 := (listMax_spec hmx).2 s hmem
    have h0 := scale_nonneg h1 hr
    have h255 := scale_le_255 h2 hr
    have hpix : renderPixel r.nodata mn (mx - mn) s = toU8 (scale mn (mx - mn) s) := by
      unfold renderPixel
      unfold isValidSample at hv
      cases hnd : r.nodata with
      | none => rfl
      | some nd => rw [hnd] at hv; simp [hv]
    rw [hpix, toU8_no_wrap h0 h255]
    rfl
  · simp only [process_tif_to_png, validSamples]
    norm_num [List.filter_cons, bne_iff_ne, listMin, listMax, renderPixel, scale,
      toU8, truncQ]
    omega

/-- Claim C4: when a nodata value is defined and the valid data is
non-uniform, every output pixel whose input sample equals nodata is
exactly 0 (the overwrite), and every output pixel whose input sample
differs from nodata carries the rescaled value — it is not touched by
the overriding rule. -/
theorem nodata_override (r : Raster) (nd mn mx : ℚ)
    (hnd : r.nodata = some nd)
    (hmn : listMin (validSamples r) = some mn)
    (hmx : listMax (validSamples r) = some mx) (hr : mn < mx) :
    ∃ out : List ℕ, (process_tif_to_png true (.ok r)).1 = some out ∧
      out.length = r.samples.length ∧
      ∀ (i : ℕ) (s : ℚ), r.samples[i]? = some s →
        (s = nd → out[i]? = some 0) ∧
        (s ≠ nd → out[i]? = some (toU8 (scale mn (mx - mn) s))) := by
  refine ⟨r.samples.map (renderPixel r.nodata mn (mx - mn)),
    by rw [process_ok_eq hmn hmx hr], List.length_map _ _, ?_⟩
  intro i s hs
  rw [List.getElem?_map, hs]
  unfold renderPixel
  rw [hnd]
  constructor
  · intro h; simp [h]
  · intro h; simp [h]

/-- Claim C5 counterexample: an all-nodata raster ([99, 99] with nodata
99) does not produce the uniform-data error. Every sample is masked, so
numpy's reduction yields the falsy `numpy.ma.masked`, the
`range_val <= 0` check is skipped, and the final nodata overwrite zeroes
every cell: the pipeline returns a successful, degenerate all-zero
artifact with no error value — contradicting "fail with
UniformDataError and emit no image artifact at all". -/
theorem uniform_data_counterexample :
    process_tif_to_png true (.ok ⟨[99, 99], some 99⟩) = (some [0, 0], none) ∧
    (some [0, 0] : Option (List ℕ)) ≠ none ∧
    (none : Option RasterError) ≠ some RasterError.uniform := by
  refine ⟨?_, by decide, by decide⟩
  simp only [process_tif_to_png, validSamples]
  norm_num [List.filter_cons, bne_iff_ne, listMin, listMax]

/-- Claim C5 (amended): a raster with at least one valid (unmasked)
sample — so that the masked min and max exist — whose valid samples have
max − min ≤ 0 makes the pipeline fail with the uniform-data error and
produce no image artifact, regardless of whether the PNG write would
succeed. (An all-nodata raster instead slips past the check, see the
counterexample.) -/
theorem uniform_data_rejected (writeOk : Bool) (r : Raster) (mn mx : ℚ)
    (hmn : listMin (validSamples r) = some mn)
    (hmx : listMax (validSamples r) = some mx) (h : mx - mn ≤ 0) :
    process_tif_to_png writeOk (.ok r) = (none, some RasterError.uniform) := by
  dsimp only [process_tif_to_png]
  rw [hmn, hmx]
  simp [h]

/-- Claim C6: for a raster with non-uniform valid data, every cell whose
sample equals the valid minimum renders to 0 and every cell whose sample
equals the valid maximum renders to 255. -/
theorem range_endpoints_map (r : Raster) (mn mx : ℚ)
    (hmn : listMin (validSamples r) = some mn)
    (hmx : listMax (validSamples r) = some mx) (hr : mn < mx) :
    ∃ out : List ℕ, (process_tif_to_png true (.ok r)).1 = some out ∧
      ∀ (i : ℕ) (s : ℚ), r.samples[i]? = some s →
        (s = mn → out[i]? = some 0) ∧ (s = mx → out[i]? = some 255) := by
  refine ⟨r.samples.map (renderPixel r.nodata mn (mx - mn)),
    by rw [process_ok_eq hmn hmx hr], ?_⟩
  intro i s hs
  rw [List.getElem?_map, hs]
  simp only [Option.map_some']
  have hpix : ∀ t, t ∈ validSamples r →
      renderPixel r.nodata mn (mx - mn) t = toU8 (scale mn (mx - mn) t) := by
    intro t ht
    unfold renderPixel
    cases hnd : r.nodata with
    | none => rfl
    | some nd' => simp [validSamples_not_nodata hnd ht]
  constructor
  · rintro rfl
    rw [hpix s (listMin_spec hmn).1, scale_self, toU8_zero]
  · rintro rfl
    rw [hpix s (listMax_spec hmx).1, scale_max hr, toU8_255]

/-- Witness for claim C10 at the scenario raster [10, 20, 30, 40, 99]
with nodata 99. -/
theorem valid_scale_in_range_no_wrap_witness :
    (∀ s ∈ ([10, 20, 30, 40, 99] : List ℚ),
        isValidSample ⟨[10, 20, 30, 40, 99], some 99⟩ s →
        0 ≤ scale 10 (40 - 10) s ∧ scale 10 (40 - 10) s ≤ 255 ∧
        toU8 (scale 10 (40 - 10) s) = (⌊scale 10 (40 - 10) s⌋).toNat) ∧
    (∀ s ∈ ([10, 20, 30, 40, 99] : List ℚ),
        ¬(0 ≤ scale 10 (40 - 10) s ∧ scale 10 (40 - 10) s ≤ 255) →
        (some 99 : Option ℚ) = some s ∧ renderPixel (some 99) 10 (40 - 10) s = 0) :=
  valid_scale_in_range_no_wrap ⟨[10, 20, 30, 40, 99], some 99⟩ 10 40
    (by simp only [validSamples]
        norm_num [List.filter_cons, bne_iff_ne, listMin, min_def])
    (by simp only [validSamples]
        norm_num [List.filter_cons, bne_iff_ne, listMax, max_def])
    (by norm_num)

/-- Witness for claim C2 (amended) at the scenario raster. -/
theorem scaling_truncates_witness :
    (process_tif_to_png true (.ok ⟨[10, 20, 30, 40, 99], some 99⟩)).1 =
        some (([10, 20, 30, 40, 99] : List ℚ).map (renderPixel (some 99) 10 (40 - 10))) ∧
    (∀ s ∈ ([10, 20, 30, 40, 99] : List ℚ),
        isValidSample ⟨[10, 20, 30, 40, 99], some 99⟩ s →
        renderPixel (some 99) 10 (40 - 10) s = (⌊(s - 10) / (40 - 10) * 255⌋).toNat) ∧
    process_tif_to_png true (.ok ⟨[10, 20, 30, 40, 99], some 99⟩) =
      (some [0, 85, 170, 255, 0], none) :=
  scaling_truncates ⟨[10, 20, 30, 40, 99], some 99⟩ 10 40
    (by simp only [validSamples]
        norm_num [List.filter_cons, bne_iff_ne, listMin, min_def])
    (by simp only [validSamples]
        norm_num [List.filter_cons, bne_iff_ne, listMax, max_def])
    (by norm_num)

/-- Witness for claim C4 at the raster [10, 20, 99] with nodata 99. -/
theorem nodata_override_witness :
    ∃ out : List ℕ, (process_tif_to_png true (.ok ⟨[10, 20, 99], some 99⟩)).1 = some out ∧
      out.length = ([10, 20, 99] : List ℚ).length ∧
      ∀ (i : ℕ) (s : ℚ), ([10, 20, 99] : List ℚ)[i]? = some s →
        (s = 99 → out[i]? = some 0) ∧
        (s ≠ 99 → out[i]? = some (toU8 (scale 10 (20 - 10) s))) :=
  nodata_override ⟨[10, 20, 99], some 99⟩ 99 10 20 rfl
    (by simp only [validSamples]
        norm_num [List.filter_cons, bne_iff_ne, listMin, min_def])
    (by simp only [validSamples]
        norm_num [List.filter_cons, bne_iff_ne, listMax, max_def])
    (by norm_num)

/-- Witness for claim C5 at the uniform raster [5, 5]. -/
theorem uniform_data_rejected_witness :
    process_tif_to_png true (.ok ⟨[5, 5], none⟩) = (none, some RasterError.uniform) :=
  uniform_data_rejected true ⟨[5, 5], none⟩ 5 5
    (by simp only [validSamples]; norm_num [listMin, min_def])
    (by simp only [validSamples]; norm_num [listMax, max_def])
    (by norm_num)

/-- Witness for claim C6 at the raster [10, 20, 30]. -/
theorem range_endpoints_map_witness :
    ∃ out : List ℕ, (process_tif_to_png true (.ok ⟨[10, 20, 30], none⟩)).1 = some out ∧
      ∀ (i : ℕ) (s : ℚ), ([10, 20, 30] : List ℚ)[i]? = some s →
        (s = 10 → out[i]? = some 0) ∧ (s = 30 → out[i]? = some 255) :=
  range_endpoints_map ⟨[10, 20, 30], none⟩ 10 30
    (by simp only [validSamples]; norm_num [listMin, min_def])
    (by simp only [validSamples]; norm_num [listMax, max_def])
    (by norm_num)

/-! ### Claim theorems: vector normalization -/

/-- Claim C1 counterexample: the local-server variant returns a
collection tagged EPSG:3857 completely unchanged — its vector path
performs no CRS check and no reprojection, so not every deployment
variant normalizes to EPSG:4326. -/
theorem vector_reprojection_counterexample :
    (get_geojson_data_local (.ok ⟨"EPSG:3857", [⟨[("name", "a")], [(500000, 4649776)]⟩]⟩)).1 =
      some ⟨"EPSG:3857", [⟨[("name", "a")], [(500000, 4649776)]⟩]⟩ ∧
    ("EPSG:3857" : String) ≠ "EPSG:4326" :=
  ⟨rfl, by decide⟩

/-- Claim C1 (amended): only the cloud-function variant normalizes the
CRS: for a source whose CRS identifier differs from EPSG:4326 it maps
the reprojection over every feature in order and tags the result
EPSG:4326, while the local-server variant returns the collection with
its source CRS and coordinates unchanged. -/
theorem vector_reprojection_cloud_only (reproject : Feature → Feature)
    (coll : FeatureColl) (h : coll.crs ≠ "EPSG:4326") :
    (get_geojson_data_cloud reproject (.ok coll)).1 =
      some ⟨"EPSG:4326", coll.features.map reproject⟩ ∧
    (get_geojson_data_local (.ok coll)).1 = some coll := by
  constructor
  · dsimp only [get_geojson_data_cloud]
    rw [if_pos h]
  · rfl

/-- Witness for claim C1 (amended) at a one-feature EPSG:3857 source. -/
theorem vector_reprojection_cloud_only_witness :
    (get_geojson_data_cloud id (.ok ⟨"EPSG:3857", [⟨[("name", "a")], [(500000, 4649776)]⟩]⟩)).1 =
      some ⟨"EPSG:4326", ([⟨[("name", "a")], [(500000, 4649776)]⟩] : List Feature).map id⟩ ∧
    (get_geojson_data_local (.ok ⟨"EPSG:3857", [⟨[("name", "a")], [(500000, 4649776)]⟩]⟩)).1 =
      some ⟨"EPSG:3857", [⟨[("name", "a")], [(500000, 4649776)]⟩]⟩ :=
  vector_reprojection_cloud_only id ⟨"EPSG:3857", [⟨[("name", "a")], [(500000, 4649776)]⟩]⟩
    (by decide)

/-- Claim C8: a vector source already tagged EPSG:4326 is passed through
by both deployment variants with features, attributes and coordinates
unchanged (the cloud variant skips its reprojection branch; the local
variant never reprojects). -/
theorem vector_identity_passthrough (reproject : Feature → Feature)
    (coll : FeatureColl) (h : coll.crs = "EPSG:4326") :
    (get_geojson_data_cloud reproject (.ok coll)).1 = some coll ∧
    (get_geojson_data_local (.ok coll)).1 = some coll := by
  constructor
  · dsimp only [get_geojson_data_cloud]
    rw [if_neg (not_not_intro h)]
  · rfl

/-- Witness for claim C8 at a one-feature EPSG:4326 source. -/
theorem vector_identity_passthrough_witness :
    (get_geojson_data_cloud id (.ok ⟨"EPSG:4326", [⟨[("name", "a")], [(3, 50)]⟩]⟩)).1 =
      some ⟨"EPSG:4326", [⟨[("name", "a")], [(3, 50)]⟩]⟩ ∧
    (get_geojson_data_local (.ok ⟨"EPSG:4326", [⟨[("name", "a")], [(3, 50)]⟩]⟩)).1 =
      some ⟨"EPSG:4326", [⟨[("name", "a")], [(3, 50)]⟩]⟩ :=
  vector_identity_passthrough id ⟨"EPSG:4326", [⟨[("name", "a")], [(3, 50)]⟩]⟩ rfl

/-- Claim C9: every invocation of the raster normalizer and of both
vector-normalizer variants returns exactly one of an artifact or an
error value — never both, never neither. -/
theorem core_single_outcome :
    (∀ (writeOk : Bool) (rf : RasterFile),
        exclusiveOutcome (process_tif_to_png writeOk rf)) ∧
    (∀ (reproject : Feature → Feature) (vf : VectorFile),
        exclusiveOutcome (get_geojson_data_cloud reproject vf)) ∧
    (∀ vf : VectorFile, exclusiveOutcome (get_geojson_data_local vf)) := by
  refine ⟨?_, ?_, ?_⟩
  · intro writeOk rf
    cases rf with
    | missing => simp [process_tif_to_png, exclusiveOutcome]
    | unreadable => simp [process_tif_to_png, exclusiveOutcome]
    | ok r =>
      dsimp only [process_tif_to_png]
      split <;> split_ifs <;> simp [exclusiveOutcome]
  · intro reproject vf
    cases vf with
    | missing => simp [get_geojson_data_cloud, exclusiveOutcome]
    | unreadable => simp [get_geojson_data_cloud, exclusiveOutcome]
    | ok coll =>
      dsimp only [get_geojson_data_cloud]
      split_ifs <;> simp [exclusiveOutcome]
  · intro vf
    cases vf with
    | missing => simp [get_geojson_data_local, exclusiveOutcome]
    | unreadable => simp [get_geojson_data_local, exclusiveOutcome]
    | ok coll => simp [get_geojson_data_local, exclusiveOutcome]

/-! ### Claim theorems: dispatch -/

theorem lower_idem (c : ℕ) : lower (lower c) = lower c := by
  unfold lower
  split_ifs <;> omega

theorem lower_eq_dot_iff (c : ℕ) : lower c = 46 ↔ c = 46 := by
  unfold lower
  split_ifs <;> omega

theorem lastDot_map_lower (name : List ℕ) :
    lastDot (name.map lower) = lastDot name := by
  induction name with
  | nil => rfl
  | cons c rest ih =>
    simp only [List.map_cons, lastDot, ih]
    cases lastDot rest with
    | some i => rfl
    | none => simp only [lower_eq_dot_iff]

theorem all_dots_map_lower (l : List ℕ) :
    ((l.map lower).all (fun c => c == 46)) = (l.all (fun c => c == 46)) := by
  induction l with
  | nil => rfl
  | cons c rest ih =>
    simp only [List.map_cons, List.all_cons, ih]
    congr 1
    by_cases h : c = 46
    · rw [h]
      rfl
    · have h2 : lower c ≠ 46 := fun hh => h ((lower_eq_dot_iff c).mp hh)
      simp [h, h2]

theorem splitextExt_map_lower (name : List ℕ) :
    splitextExt (name.map lower) = (splitextExt name).map lower := by
  unfold splitextExt
  rw [lastDot_map_lower]
  cases lastDot name with
  | none => rfl
  | some i =>
    dsimp only
    rw [← List.map_take, all_dots_map_lower, ← List.map_drop]
    by_cases h : (name.take i).all (fun c => c == 46) = true
    · rw [if_pos h, if_pos h]
      rfl
    · rw [if_neg h, if_neg h]

/-- Claim C3 counterexample: a name ending in ".tiff" is dispatched as
unsupported by both deployment variants (the claim says raster), and the
cloud variant's suffix match is case-sensitive, rejecting "X.TIF". -/
theorem dispatch_counterexample :
    classifyLocal (codes "x.tiff") = Category.UnsupportedType ∧
    classifyCloud (codes "x.tiff") = Category.UnsupportedType ∧
    classifyCloud (codes "X.TIF") = Category.UnsupportedType := by
  refine ⟨by decide, by decide, by decide⟩

/-- Claim C3 (amended): the local variant's dispatch is a pure,
case-insensitive function of the splitext extension mapping exactly the
lowercased extension ".tif" to the raster category and exactly
".geojson", ".gpkg", ".shp" to the vector category, with every other
name — including ".tiff" names and names with no extension —
unsupported; the cloud variant instead matches the raster extension as a
case-sensitive suffix. -/
theorem dispatch_extension_cases :
    (∀ name : List ℕ, classifyLocal (name.map lower) = classifyLocal name) ∧
    (∀ name : List ℕ, classifyLocal name = Category.RasterCat ↔
        (splitextExt name).map lower = codes ".tif") ∧
    (∀ name : List ℕ, classifyLocal name = Category.VectorCat ↔
        ((splitextExt name).map lower = codes ".geojson" ∨
         (splitextExt name).map lower = codes ".gpkg" ∨
         (splitextExt name).map lower = codes ".shp")) ∧
    (∀ name : List ℕ, classifyLocal name = Category.UnsupportedType ↔
        ¬((splitextExt name).map lower = codes ".tif" ∨
          (splitextExt name).map lower = codes ".geojson" ∨
          (splitextExt name).map lower = codes ".gpkg" ∨
          (splitextExt name).map lower = codes ".shp")) ∧
    (∀ name : List ℕ, classifyCloud name = Category.RasterCat ↔
        (codes ".tif").isSuffixOf name) ∧
    classifyLocal (codes "X.TIF") = Category.RasterCat ∧
    classifyLocal (codes "runoff.Tiff") = Category.UnsupportedType ∧
    classifyLocal (codes "noextension") = Category.UnsupportedType := by
  refine ⟨?_, ?_, ?_, ?_, ?_, by decide, by decide, by decide⟩
  · intro name
    unfold classifyLocal
    rw [splitextExt_map_lower, List.map_map]
    have h : lower ∘ lower = lower := funext lower_idem
    rw [h]
  · intro name
    unfold classifyLocal
    split_ifs with h1 h2 <;> simp_all
  · intro name
    unfold classifyLocal
    split_ifs with h1 h2 <;> simp_all
    decide
  · intro name
    unfold classifyLocal
    split_ifs with h1 h2 <;> simp_all
  · intro name
    unfold classifyCloud
    split_ifs with h1 h2 <;> simp_all

end Geo
